import Mathlib

/-!
Verification of `datasette/views/special.py` (access-control views of the
datasette server): the one-time root-bootstrap token view, the signed
capability-token creation view, and the permission/allow debug views.

Python values that appear in these views (actors, allow rules) are JSON
data; we embed them as the inductive `JValue`.  Stateful views become
explicit state-passing functions; `raise Forbidden(msg)` becomes a
`forbidden msg` constructor of the result type.  Functions the views call
that live outside this file of the repository (the signing primitive
`ds.sign`, the JSON parser, the matcher `actor_matches_allow`, the
permission evaluator) are taken as function parameters, except where a
claim depends on their behaviour, in which case they are modelled from the
spec and marked as such.
-/

/-- JSON values, as manipulated by the Python views (floats are not needed
by any view modelled here, so numbers are integers). -/
inductive JValue where
  | null : JValue
  | bool (b : Bool) : JValue
  | num (n : Int) : JValue
  | str (s : String) : JValue
  | arr (elems : List JValue) : JValue
  | obj (fields : List (String × JValue)) : JValue

/-- An actor is a JSON object: a mapping from string keys to JSON values
(Python dict, so keys are unique; lookup takes the first match). -/
abbrev Actor := List (String × JValue)

/-- Dictionary lookup, Python `d.get(key)`: `none` when the key is absent. -/
def lookupA : Actor → String → Option JValue
  | [], _ => none
  | (k, v) :: rest, key => if k = key then some v else lookupA rest key

/-- Python truthiness of a JSON value: `None`, `False`, `0`, `""`, `[]`
and `{}` are falsy, everything else truthy. -/
def pyTruthy : JValue → Bool
  | .null => false
  | .bool b => b
  | .num n => n != 0
  | .str s => s != ""
  | .arr elems => !elems.isEmpty
  | .obj fields => !fields.isEmpty

/-- Truthiness of `d.get(key)`: a missing key (Python `None`) is falsy. -/
def pyTruthyOpt : Option JValue → Bool
  | none => false
  | some v => pyTruthy v

/-- Truthiness of `request.actor`: `None` and the empty dict are falsy. -/
def actorTruthy : Option Actor → Bool
  | none => false
  | some a => !a.isEmpty

/-- Python `args.get(name) or default`: an absent or empty string argument
is replaced by the default. -/
def argOr (arg : Option String) (default : String) : String :=
  match arg with
  | none => default
  | some s => if s = "" then default else s

/- ### AuthTokenView: one-time root bootstrap -/

/-- Payload signed into the `ds_actor` cookie on a successful root
bootstrap: `{"a": {"id": "root"}}` from `AuthTokenView.get`. -/
def rootActorPayload : JValue := .obj [("a", .obj [("id", .str "root")])]

/-- Outcome of `AuthTokenView.get`: a redirect setting the `ds_actor`
cookie to the given signed value, or a `Forbidden` error with a message. -/
inductive AuthResult where
  | redirect (cookie : String) : AuthResult
  | forbidden (msg : String) : AuthResult
deriving DecidableEq

/-- AuthTokenView.get.  State is `ds._root_token : Option String`
(`none` once consumed).  `sign payload namespace` is `ds.sign`.
`arg` is `request.args.get("token")`; the code replaces a falsy value with
`""`.  The code first tests `if not self.ds._root_token` (Python falsy:
`None` or `""`), then compares with constant-time string equality; on a
match it clears the secret and redirects with the signed root cookie. -/
def authTokenGet (sign : JValue → String → String)
    (rootToken : Option String) (arg : Option String) :
    AuthResult × Option String :=
  let token := argOr arg ""
  match rootToken with
  | none => (.forbidden "Root token has already been used", none)
  | some rt =>
    if rt = "" then (.forbidden "Root token has already been used", some rt)
    else if token = rt then
      (.redirect (sign rootActorPayload "actor"), none)
    else (.forbidden "Invalid token", some rt)

/-- Sequence of `AuthTokenView.get` requests threading the root-token
state: returns the list of outcomes and the final state. -/
def authTokenRun (sign : JValue → String → String) :
    Option String → List (Option String) → List AuthResult × Option String
  | st, [] => ([], st)
  | st, a :: rest =>
    let r := authTokenGet sign st a
    let rs := authTokenRun sign r.2 rest
    (r.1 :: rs.1, rs.2)

/-- Once the root token is consumed (state `none`), every request fails
with Forbidden and the state stays `none`. -/
theorem authTokenRun_consumed_all_forbidden
    (sign : JValue → String → String) (args : List (Option String)) :
    (∀ r ∈ (authTokenRun sign none args).1, ∃ m, r = .forbidden m) ∧
      (authTokenRun sign none args).2 = none := by
  induction args with
  | nil => simp [authTokenRun]
  | cons a rest ih =>
    refine ⟨?_, ?_⟩
    · intro r hr
      simp only [authTokenRun, authTokenGet, List.mem_cons] at hr
      rcases hr with h | h
      · exact ⟨_, h⟩
      · exact ih.1 r (by simpa [authTokenGet] using h)
    · simpa [authTokenRun, authTokenGet] using ih.2

/-- C1: the first presentation of the stored root secret succeeds — it
redirects with the `ds_actor` cookie set to the signature, under the
"actor" namespace, of `{"a": {"id": "root"}}` — and clears the secret;
afterwards every further presentation, whatever its value, fails with
Forbidden. -/
theorem authToken_single_use (sign : JValue → String → String)
    (s : String) (later : List (Option String)) (hs : s ≠ "") :
    (authTokenGet sign (some s) (some s)).1 =
        .redirect (sign rootActorPayload "actor") ∧
      (authTokenGet sign (some s) (some s)).2 = none ∧
      ∀ r ∈ (authTokenRun sign (authTokenGet sign (some s) (some s)).2
          later).1, ∃ m, r = .forbidden m := by
  have hstep : authTokenGet sign (some s) (some s) =
      (.redirect (sign rootActorPayload "actor"), none) := by
    simp [authTokenGet, argOr, hs]
  refine ⟨by rw [hstep], by rw [hstep], ?_⟩
  rw [hstep]
  exact (authTokenRun_consumed_all_forbidden sign later).1

/-- Concrete signer used by witnesses: returns the namespace tag. -/
def sign0 : JValue → String → String := fun _ ns => ns

/-- Witness for C1 at secret "s3cret" followed by three replays. -/
theorem authToken_single_use_witness :
    (authTokenGet sign0 (some "s3cret") (some "s3cret")).1 =
        .redirect (sign0 rootActorPayload "actor") ∧
      (authTokenGet sign0 (some "s3cret") (some "s3cret")).2 = none ∧
      ∀ r ∈ (authTokenRun sign0
          (authTokenGet sign0 (some "s3cret") (some "s3cret")).2
          [some "s3cret", some "other", none]).1, ∃ m, r = .forbidden m :=
  authToken_single_use sign0 "s3cret" [some "s3cret", some "other", none]
    (by decide)

/-- C2 counterexample: a wrong value presented while the secret is live
and a value presented after consumption do NOT produce identical outcomes:
the first fails with "Invalid token", the second with "Root token has
already been used", so the caller can distinguish them. -/
theorem authToken_failures_distinguishable :
    (authTokenGet sign0 (some "s3cret") (some "wrong")).1 ≠
      (authTokenGet sign0 none (some "wrong")).1 := by
  decide

/-- C2 amended: both runs fail with a Forbidden error, but with different
messages — "Invalid token" for a wrong value while the secret is live,
"Root token has already been used" for any value after consumption. -/
theorem authToken_failures_both_forbidden
    (sign : JValue → String → String) (s t : String) (u : Option String)
    (hs : s ≠ "") (ht : t ≠ s) :
    (authTokenGet sign (some s) (some t)).1 = .forbidden "Invalid token" ∧
      (authTokenGet sign none u).1 =
        .forbidden "Root token has already been used" := by
  constructor
  · by_cases h0 : t = ""
    · simp [authTokenGet, argOr, h0, hs, Ne.symm hs]
    · simp [authTokenGet, argOr, h0, hs, ht]
  · simp [authTokenGet]

/-- Witness for the amended C2 at concrete values. -/
theorem authToken_failures_both_forbidden_witness :
    (authTokenGet sign0 (some "s3cret") (some "wrong")).1 =
        .forbidden "Invalid token" ∧
      (authTokenGet sign0 none (some "wrong")).1 =
        .forbidden "Root token has already been used" :=
  authToken_failures_both_forbidden sign0 "s3cret" "wrong" (some "wrong")
    (by decide) (by decide)

/- ### CreateTokenView: signed capability-token creation -/

/-- Truthiness of `post.get(name)` / `args.get(name)` for form values:
absent (`None`) or empty string is falsy. -/
def postVarTruthy : Option String → Bool
  | none => false
  | some s => s != ""

/-- Payload of a signed capability token (`token_bits` in
CreateTokenView.post): "a" is the actor id (a JSON value), "t" the unix
time of issuance, "d" the optional duration in seconds. -/
structure TokenBits where
  a : JValue
  t : Nat
  d : Option Nat

/-- Outcome of CreateTokenView.get: Forbidden or the rendered form. -/
inductive CreateTokenGetResult where
  | forbidden (msg : String) : CreateTokenGetResult
  | render : CreateTokenGetResult

/-- Outcome of CreateTokenView.post: Forbidden, or the rendered page
carrying the validation errors, the token payload and the token string. -/
inductive CreateTokenResult where
  | forbidden (msg : String) : CreateTokenResult
  | page (errors : List String) (bits : Option TokenBits)
      (token : Option String) : CreateTokenResult

/-- CreateTokenView.check_permission: raises Forbidden (returns
`some message`) when signed tokens are disabled, the actor is falsy,
the actor has no truthy "id", or the actor has a truthy "token" marker;
returns `none` when the request may proceed. -/
def check_permission (allowSignedTokens : Bool) (actor : Option Actor) :
    Option String :=
  if allowSignedTokens = false then
    some "Signed tokens are not enabled for this Datasette instance"
  else if actorTruthy actor = false then
    some "You must be logged in to create a token"
  else if pyTruthyOpt (lookupA (actor.getD []) "id") = false then
    some "You must be logged in as an actor with an ID to create a token"
  else if pyTruthyOpt (lookupA (actor.getD []) "token") then
    some "Token authentication cannot be used to create additional tokens"
  else none

/-- Python `duration_string.isdigit()` followed by
`int(duration_string)`: `some n` exactly when the string is non-empty and
all (ASCII) digits.  Written over the character list so that concrete
inputs evaluate by kernel reduction. -/
def pyStrToNat (s : String) : Option Nat :=
  if !s.data.isEmpty && s.data.all Char.isDigit then
    some (s.data.foldl (fun n c => n * 10 + (c.toNat - 48)) 0)
  else none

/-- Expiry validation of CreateTokenView.post: given `expire_type` and
`expire_duration` from the form, returns the error list and the computed
duration in seconds.  Mirrors the source: nothing is validated when
`expire_type` is falsy; a missing, non-digit or non-positive
`expire_duration` appends "Invalid expire duration"; a unit other than
minutes/hours/days appends "Invalid expire duration unit". -/
def parsedDuration (et ed : Option String) : List String × Option Nat :=
  if postVarTruthy et = false then ([], none)
  else
    match ed with
    | none => (["Invalid expire duration"], none)
    | some s =>
      match pyStrToNat s with
      | none => (["Invalid expire duration"], none)
      | some n =>
        if n = 0 then (["Invalid expire duration"], none)
        else
          match et.getD "" with
          | "minutes" => ([], some (n * 60))
          | "hours" => ([], some (n * 60 * 60))
          | "days" => ([], some (n * 60 * 60 * 24))
          | _ => (["Invalid expire duration unit"], none)

/-- CreateTokenView.get: check_permission then render the form. -/
def createTokenViewGet (allowSignedTokens : Bool) (actor : Option Actor) :
    CreateTokenGetResult :=
  match check_permission allowSignedTokens actor with
  | some m => .forbidden m
  | none => .render

/-- CreateTokenView.post: check_permission, validate the expiry form
fields, and when there are no errors build `token_bits` from
`request.actor["id"]` (present because check_permission demanded a truthy
id) and the current time, add "d" only when the computed duration is
truthy, and sign under the "token" namespace with the fixed prefix
"dstok_". -/
def createTokenViewPost (allowSignedTokens : Bool) (actor : Option Actor)
    (sign : TokenBits → String → String) (now : Nat)
    (et ed : Option String) : CreateTokenResult :=
  match check_permission allowSignedTokens actor with
  | some m => .forbidden m
  | none =>
    let errs := (parsedDuration et ed).1
    let duration := (parsedDuration et ed).2
    if errs = [] then
      let d := match duration with
        | some n => if n = 0 then none else some n
        | none => none
      let bits : TokenBits := ⟨(lookupA (actor.getD []) "id").getD .null, now, d⟩
      .page errs (some bits) (some ("dstok_" ++ sign bits "token"))
    else .page errs none none

/-- Helper: check_permission passes when signed tokens are enabled and
the actor has a truthy id and no truthy token marker. -/
theorem check_permission_pass (a : Actor)
    (hid : pyTruthyOpt (lookupA a "id") = true)
    (htok : pyTruthyOpt (lookupA a "token") = false) :
    check_permission true (some a) = none := by
  have hne : a.isEmpty = false := by
    cases a with
    | nil => simp [lookupA, pyTruthyOpt] at hid
    | cons h t => simp [List.isEmpty]
  simp [check_permission, actorTruthy, hne, hid, htok]

/-- C3: a successful issuance produces exactly
"dstok_" ++ sign(token_bits, "token"), where token_bits holds the actor's
id and the current unix time; with no expiry requested the duration field
is absent, and with unit minutes/hours/days and positive count n the
duration is n*60, n*3600 and n*86400 seconds respectively. -/
theorem createToken_success (sign : TokenBits → String → String)
    (a : Actor) (now : Nat)
    (hid : pyTruthyOpt (lookupA a "id") = true)
    (htok : pyTruthyOpt (lookupA a "token") = false) :
    (∀ et, postVarTruthy et = false →
      createTokenViewPost true (some a) sign now et none =
        .page [] (some ⟨(lookupA a "id").getD .null, now, none⟩)
          (some ("dstok_" ++
            sign ⟨(lookupA a "id").getD .null, now, none⟩ "token"))) ∧
    ∀ s n, pyStrToNat s = some n → 0 < n →
      (createTokenViewPost true (some a) sign now (some "minutes") (some s) =
        .page [] (some ⟨(lookupA a "id").getD .null, now, some (n * 60)⟩)
          (some ("dstok_" ++
            sign ⟨(lookupA a "id").getD .null, now, some (n * 60)⟩
              "token"))) ∧
      (createTokenViewPost true (some a) sign now (some "hours") (some s) =
        .page [] (some ⟨(lookupA a "id").getD .null, now, some (n * 3600)⟩)
          (some ("dstok_" ++
            sign ⟨(lookupA a "id").getD .null, now, some (n * 3600)⟩
              "token"))) ∧
      (createTokenViewPost true (some a) sign now (some "days") (some s) =
        .page [] (some ⟨(lookupA a "id").getD .null, now, some (n * 86400)⟩)
          (some ("dstok_" ++
            sign ⟨(lookupA a "id").getD .null, now, some (n * 86400)⟩
              "token"))) := by
  have hcp := check_permission_pass a hid htok
  constructor
  · intro et het
    simp [createTokenViewPost, hcp, parsedDuration, het]
  · intro s n hsn hn
    have h60 : n * 60 ≠ 0 := by omega
    have h3600 : n * 60 * 60 = n * 3600 := by ring
    have h86400 : n * 60 * 60 * 24 = n * 86400 := by ring
    have h86400b : n * 3600 * 24 = n * 86400 := by ring
    have h3600z : n * 60 * 60 ≠ 0 := by omega
    have h86400z : n * 60 * 60 * 24 ≠ 0 := by omega
    have hne : n ≠ 0 := hn.ne'
    refine ⟨?_, ?_, ?_⟩ <;>
      simp [createTokenViewPost, hcp, parsedDuration, postVarTruthy, hsn,
        hne, h60, h3600z, h86400z, h3600, h86400, h86400b]

/-- Concrete signer for token witnesses: records duration presence. -/
def tsign0 : TokenBits → String → String := fun bits ns =>
  match bits.d with
  | none => ns
  | some d => ns ++ "-" ++ toString d

/-- Witness for C3: actor alice, 2 minutes requested. -/
theorem createToken_success_witness :
    createTokenViewPost true (some [("id", .str "alice")]) tsign0 100
        (some "minutes") (some "2") =
      .page [] (some ⟨.str "alice", 100, some 120⟩)
        (some ("dstok_" ++ tsign0 ⟨.str "alice", 100, some 120⟩ "token")) :=
  (((createToken_success tsign0 [("id", .str "alice")] 100 (by decide)
    (by decide)).2 "2" 2 (by decide) (by decide)).1)

/-- Python check `not duration_string or not duration_string.isdigit() or
not int(duration_string) > 0` as a Bool on the optional form value. -/
def badDurationString (ed : Option String) : Bool :=
  match ed with
  | none => true
  | some s =>
    match pyStrToNat s with
    | none => true
    | some n => n == 0

/-- Helper: with a truthy expire_type, a bad duration string or an
unrecognized unit makes parsedDuration produce exactly one error and no
duration. -/
theorem parsedDuration_invalid (et ed : Option String)
    (het : postVarTruthy et = true)
    (hbad : badDurationString ed = true ∨
      (et.getD "" ≠ "minutes" ∧ et.getD "" ≠ "hours" ∧ et.getD "" ≠ "days")) :
    parsedDuration et ed =
      ((if badDurationString ed then ["Invalid expire duration"]
        else ["Invalid expire duration unit"]), none) := by
  rcases ed with _ | s
  · simp [parsedDuration, badDurationString, het]
  · rcases hn : pyStrToNat s with _ | n
    · simp [parsedDuration, badDurationString, het, hn]
    · rcases Nat.eq_zero_or_pos n with h0 | hpos
      · simp [parsedDuration, badDurationString, het, hn, h0]
      · have hne : n ≠ 0 := hpos.ne'
        have hb : badDurationString (some s) = false := by
          simp [badDurationString, hn, hne]
        rcases hbad with h | ⟨hm, hh, hd⟩
        · rw [hb] at h; exact absurd h (by simp)
        · simp only [parsedDuration, het, Bool.false_eq_true,
            if_false, hn, hne, if_neg hne, hb, if_false]
          rcases et with _ | u
          · simp [postVarTruthy] at het
          · simp only [Option.getD] at hm hh hd ⊢
            simp [hm, hh, hd]

/-- C4: when an expiry is requested (truthy expire_type) but the expiry
specification is invalid — a missing, non-digit or non-positive duration
count, or a duration unit outside minutes/hours/days — the post returns a
non-empty list of human-readable validation errors, no token payload and
no token string. -/
theorem createToken_invalid (sign : TokenBits → String → String)
    (a : Actor) (now : Nat) (et ed : Option String)
    (hid : pyTruthyOpt (lookupA a "id") = true)
    (htok : pyTruthyOpt (lookupA a "token") = false)
    (het : postVarTruthy et = true)
    (hbad : badDurationString ed = true ∨
      (et.getD "" ≠ "minutes" ∧ et.getD "" ≠ "hours" ∧ et.getD "" ≠ "days")) :
    createTokenViewPost true (some a) sign now et ed =
      .page (if badDurationString ed then ["Invalid expire duration"]
        else ["Invalid expire duration unit"]) none none := by
  have hcp := check_permission_pass a hid htok
  have hpd := parsedDuration_invalid et ed het hbad
  cases hb : badDurationString ed with
  | false => simp [createTokenViewPost, hcp, hpd, hb]
  | true => simp [createTokenViewPost, hcp, hpd, hb]

/-- Witness for C4: duration unit "fortnights" is rejected and no token
is produced. -/
theorem createToken_invalid_witness :
    createTokenViewPost true (some [("id", .str "alice")]) tsign0 100
        (some "fortnights") (some "5") =
      .page (if badDurationString (some "5") then ["Invalid expire duration"]
        else ["Invalid expire duration unit"]) none none :=
  createToken_invalid tsign0 [("id", .str "alice")] 100 (some "fortnights")
    (some "5") (by decide) (by decide) (by decide) (Or.inr (by decide))

/-- Helper: an actor carrying a truthy "token" marker never passes
check_permission, whatever the other inputs. -/
theorem check_permission_token_blocked (allowST : Bool) (a : Actor)
    (htok : pyTruthyOpt (lookupA a "token") = true) :
    ∃ m, check_permission allowST (some a) = some m := by
  cases h1 : allowST with
  | false =>
    exact ⟨"Signed tokens are not enabled for this Datasette instance",
      by simp [check_permission]⟩
  | true =>
    cases h2 : actorTruthy (some a) with
    | false =>
      exact ⟨"You must be logged in to create a token",
        by simp [check_permission, h2]⟩
    | true =>
      cases h3 : pyTruthyOpt (lookupA a "id") with
      | false =>
        exact ⟨"You must be logged in as an actor with an ID to create a token",
          by simp [check_permission, h2, h3]⟩
      | true =>
        exact ⟨"Token authentication cannot be used to create additional tokens",
          by simp [check_permission, h2, h3, htok]⟩

/-- C5: a request (GET or POST) whose actor carries a truthy "token"
attribute fails with Forbidden; the POST issues no token. -/
theorem createToken_token_marker (allowST : Bool) (a : Actor)
    (sign : TokenBits → String → String) (now : Nat) (et ed : Option String)
    (htok : pyTruthyOpt (lookupA a "token") = true) :
    (∃ m, createTokenViewGet allowST (some a) = .forbidden m) ∧
      ∃ m, createTokenViewPost allowST (some a) sign now et ed =
        .forbidden m := by
  obtain ⟨m, hm⟩ := check_permission_token_blocked allowST a htok
  exact ⟨⟨m, by simp [createTokenViewGet, hm]⟩,
    ⟨m, by simp [createTokenViewPost, hm]⟩⟩

/-- Witness for C5: a token-authenticated alice is refused. -/
theorem createToken_token_marker_witness :
    (∃ m, createTokenViewGet true
        (some [("id", .str "alice"), ("token", .str "dstok_x")]) =
      .forbidden m) ∧
      ∃ m, createTokenViewPost true
          (some [("id", .str "alice"), ("token", .str "dstok_x")])
          tsign0 100 none none = .forbidden m :=
  createToken_token_marker true
    [("id", .str "alice"), ("token", .str "dstok_x")] tsign0 100 none none
    (by decide)

/-- Helper: disabled signed tokens, a missing actor, or an actor without
a truthy id never pass check_permission. -/
theorem check_permission_precondition_blocked (allowST : Bool)
    (actor : Option Actor)
    (h : allowST = false ∨ actor = none ∨
      pyTruthyOpt (lookupA (actor.getD []) "id") = false) :
    ∃ m, check_permission allowST actor = some m := by
  cases h1 : allowST with
  | false =>
    exact ⟨"Signed tokens are not enabled for this Datasette instance",
      by simp [check_permission]⟩
  | true =>
    rcases h with h | h | h
    · simp [h1] at h
    · exact ⟨"You must be logged in to create a token",
        by simp [check_permission, h, actorTruthy]⟩
    · cases h2 : actorTruthy actor with
      | false =>
        exact ⟨"You must be logged in to create a token",
          by simp [check_permission, h2]⟩
      | true =>
        exact ⟨"You must be logged in as an actor with an ID to create a token",
          by simp [check_permission, h2, h]⟩

/-- C8: if allow_signed_tokens is disabled, or there is no actor, or the
actor has no truthy "id", both GET and POST fail with Forbidden and no
token is issued. -/
theorem createToken_preconditions (allowST : Bool) (actor : Option Actor)
    (sign : TokenBits → String → String) (now : Nat) (et ed : Option String)
    (h : allowST = false ∨ actor = none ∨
      pyTruthyOpt (lookupA (actor.getD []) "id") = false) :
    (∃ m, createTokenViewGet allowST actor = .forbidden m) ∧
      ∃ m, createTokenViewPost allowST actor sign now et ed =
        .forbidden m := by
  obtain ⟨m, hm⟩ := check_permission_precondition_blocked allowST actor h
  exact ⟨⟨m, by simp [createTokenViewGet, hm]⟩,
    ⟨m, by simp [createTokenViewPost, hm]⟩⟩

/-- Witness for C8: signed tokens disabled for a logged-in alice. -/
theorem createToken_preconditions_witness :
    (∃ m, createTokenViewGet false (some [("id", .str "alice")]) =
      .forbidden m) ∧
      ∃ m, createTokenViewPost false (some [("id", .str "alice")])
          tsign0 100 none none = .forbidden m :=
  createToken_preconditions false (some [("id", .str "alice")]) tsign0 100
    none none (Or.inl rfl)

/- ### AllowDebugView: debug tool for actor_matches_allow -/

/-- Default actor input of AllowDebugView.get, used when the "actor"
query parameter is absent or empty. -/
def defaultActorInput : String := "\x7b\"id\": \"root\"\x7d"

/-- Default allow input of AllowDebugView.get, used when the "allow"
query parameter is absent or empty. -/
def defaultAllowInput : String := "\x7b\"id\": \"*\"\x7d"

/-- Python `str` of a bool, as rendered by `str(actor_matches_allow(...))`. -/
def pyBoolStr (b : Bool) : String := if b then "True" else "False"

/-- Rendered outcome of AllowDebugView.get: the displayed result (string
form of the match, or `none` when a parse failed) and the collected error
messages.  The re-indented echo of the inputs in the template context is
presentation only and not modelled. -/
structure AllowDebugPage where
  result : Option String
  errors : List String

/-- AllowDebugView.get.  `parse` stands for `json.loads` (`Except` error
value = the decode error message `ex`), `matcher` for
`actor_matches_allow` (defined outside this source file); both inputs
fall back to their defaults when absent or empty, each parse failure
appends its message, and the matcher runs only when there are no errors,
its boolean result displayed via `str`. -/
def allowDebugGet (parse : String → Except String JValue)
    (matcher : JValue → JValue → Bool)
    (actorArg allowArg : Option String) : AllowDebugPage :=
  let actorInput := argOr actorArg defaultActorInput
  let allowInput := argOr allowArg defaultAllowInput
  let actorErrs := match parse actorInput with
    | .ok _ => []
    | .error e => ["Actor JSON error: " ++ e]
  let allowErrs := match parse allowInput with
    | .ok _ => []
    | .error e => ["Allow JSON error: " ++ e]
  let errors := actorErrs ++ allowErrs
  let result := if errors.isEmpty then
      match parse actorInput, parse allowInput with
      | .ok actor, .ok allow => some (pyBoolStr (matcher actor allow))
      | _, _ => none
    else none
  { result := result, errors := errors }

/-- C6: if either input fails to parse the corresponding error message is
collected and the displayed result is `none`; if both parse the displayed
result is exactly the string form of `actor_matches_allow(actor, allow)`,
with no other transformation. -/
theorem allowDebug_parse_behavior (parse : String → Except String JValue)
    (matcher : JValue → JValue → Bool) (actorArg allowArg : Option String) :
    (∀ e, parse (argOr actorArg defaultActorInput) = .error e →
      (allowDebugGet parse matcher actorArg allowArg).result = none ∧
        ("Actor JSON error: " ++ e) ∈
          (allowDebugGet parse matcher actorArg allowArg).errors) ∧
    (∀ e, parse (argOr allowArg defaultAllowInput) = .error e →
      (allowDebugGet parse matcher actorArg allowArg).result = none ∧
        ("Allow JSON error: " ++ e) ∈
          (allowDebugGet parse matcher actorArg allowArg).errors) ∧
    ∀ actor allow, parse (argOr actorArg defaultActorInput) = .ok actor →
      parse (argOr allowArg defaultAllowInput) = .ok allow →
      (allowDebugGet parse matcher actorArg allowArg).result =
          some (pyBoolStr (matcher actor allow)) ∧
        (allowDebugGet parse matcher actorArg allowArg).errors = [] := by
  refine ⟨?_, ?_, ?_⟩
  · intro e he
    constructor
    · cases hl : parse (argOr allowArg defaultAllowInput) with
      | ok v => simp [allowDebugGet, he, hl]
      | error e2 => simp [allowDebugGet, he, hl]
    · cases hl : parse (argOr allowArg defaultAllowInput) with
      | ok v => simp [allowDebugGet, he, hl]
      | error e2 => simp [allowDebugGet, he, hl]
  · intro e he
    constructor
    · cases ha : parse (argOr actorArg defaultActorInput) with
      | ok v => simp [allowDebugGet, he, ha]
      | error e2 => simp [allowDebugGet, he, ha]
    · cases ha : parse (argOr actorArg defaultActorInput) with
      | ok v => simp [allowDebugGet, he, ha]
      | error e2 => simp [allowDebugGet, he, ha]
  · intro actor allow ha hl
    simp [allowDebugGet, ha, hl]

/-- Concrete parser for witnesses: accepts the two default inputs and
"true", rejects everything else with a fixed message. -/
def parse0 : String → Except String JValue := fun s =>
  if s = defaultActorInput then .ok (.obj [("id", .str "root")])
  else if s = defaultAllowInput then .ok (.obj [("id", .str "*")])
  else if s = "true" then .ok (.bool true)
  else .error ("Expecting value: line 1 column 1 (char 0)")

/-- Concrete matcher for witnesses: allows only the root actor. -/
def matches0 : JValue → JValue → Bool := fun actor _ =>
  pyTruthyOpt (match actor with
    | .obj fields => lookupA fields "id"
    | _ => none)

/-- Witness for C6: a malformed actor input yields the collected error
and no result; well-formed inputs yield the matcher's string. -/
theorem allowDebug_parse_behavior_witness :
    ((allowDebugGet parse0 matches0 (some "nonsense") (some "true")).result =
        none ∧
      ("Actor JSON error: " ++ "Expecting value: line 1 column 1 (char 0)") ∈
        (allowDebugGet parse0 matches0 (some "nonsense")
          (some "true")).errors) :=
  (allowDebug_parse_behavior parse0 matches0 (some "nonsense")
    (some "true")).1 "Expecting value: line 1 column 1 (char 0)" (by rfl)

/-- C10: an absent or empty "actor" parameter defaults the actor input
to the JSON text of the root actor, an absent or empty "allow" parameter
defaults the rule input to the wildcard-id rule, and a parameterless
request whose defaults parse evaluates the matcher on them with no
error reported. -/
theorem allowDebug_defaults (parse : String → Except String JValue)
    (matcher : JValue → JValue → Bool) :
    argOr none defaultActorInput = "\x7b\"id\": \"root\"\x7d" ∧
      argOr (some "") defaultActorInput = "\x7b\"id\": \"root\"\x7d" ∧
      argOr none defaultAllowInput = "\x7b\"id\": \"*\"\x7d" ∧
      argOr (some "") defaultAllowInput = "\x7b\"id\": \"*\"\x7d" ∧
      ∀ actor allow, parse defaultActorInput = .ok actor →
        parse defaultAllowInput = .ok allow →
        allowDebugGet parse matcher none none =
          { result := some (pyBoolStr (matcher actor allow)),
            errors := [] } := by
  refine ⟨rfl, rfl, rfl, rfl, ?_⟩
  intro actor allow ha hl
  simp [allowDebugGet, argOr, ha, hl]

/-- Witness for C10: with a parser accepting the default inputs, the
parameterless request displays the matcher verdict on the defaults. -/
theorem allowDebug_defaults_witness :
    allowDebugGet parse0 matches0 none none =
      { result := some (pyBoolStr (matches0 (.obj [("id", .str "root")])
          (.obj [("id", .str "*")]))), errors := [] } :=
  (allowDebug_defaults parse0 matches0).2.2.2.2
    (.obj [("id", .str "root")]) (.obj [("id", .str "*")]) (by rfl) (by rfl)

/- ### PermissionsDebugView: recent permission checks -/

/-- Outcome of PermissionsDebugView.get: Forbidden, or the rendered
list of permission-check records. -/
inductive PermDebugGetResult (α : Type) where
  | forbidden (msg : String) : PermDebugGetResult α
  | render (checks : List α) : PermDebugGetResult α

/-- Modelled from the spec: appending one PermissionCheck record to the
fixed-capacity ring buffer — when the append would exceed the capacity
`cap`, the oldest records (at the front of the list) are evicted first. -/
def ringAppend {α : Type} (cap : Nat) (st : List α) (c : α) : List α :=
  let st1 := st ++ [c]
  if st1.length ≤ cap then st1 else st1.drop (st1.length - cap)

/-- Helper: while the buffer stays within capacity, a ring-buffer append
is a plain append and evicts nothing. -/
theorem ringAppend_within_capacity {α : Type} (cap : Nat) (st : List α)
    (c : α) (h : st.length + 1 ≤ cap) : ringAppend cap st c = st ++ [c] := by
  simp [ringAppend, h]

/-- PermissionsDebugView.get, over an abstract type α of PermissionCheck
records; the state is the `ds._permission_checks` buffer.
Modelled from the spec: `ds.ensure_permissions` and
`ds.permission_allowed` are defined outside this source file; the spec
states that every permission-evaluator call appends a PermissionCheck
record to the capacity-bounded ring buffer (capacity `cap`, oldest
evicted first) regardless of outcome, so the view-instance gate appends
one record (`c1`, outcome `viewInstanceOk`) and the permissions-debug
gate a second (`c2`, outcome `debugOk`), Forbidden being raised after
the append.  On success the view renders
`list(reversed(ds._permission_checks))` without touching the buffer. -/
def permissionsDebugGet {α : Type} (cap : Nat) (viewInstanceOk debugOk : Bool)
    (c1 c2 : α) (st : List α) : PermDebugGetResult α × List α :=
  let st1 := ringAppend cap st c1
  if viewInstanceOk = false then (.forbidden "Forbidden", st1)
  else
    let st2 := ringAppend cap st1 c2
    if debugOk = false then (.forbidden "Permission denied", st2)
    else (.render st2.reverse, st2)

/-- C7 counterexample: starting from an empty buffer (capacity 200, the
spec's example), a permitted GET of the permissions debug view leaves
the buffer non-empty — its own permission gates appended their check
records, so the buffer is not the same before and after the read. -/
theorem permissionsDebug_get_mutates :
    (permissionsDebugGet 200 true true 0 1 ([] : List Nat)).2 ≠ [] := by
  decide

/-- C7 amended: a permitted GET renders the final buffer most-recent-first
(the reverse of the stored order), and the only mutation is its own two
permission-gate appends to the ring buffer (each with oldest-first
eviction at capacity); in particular, while the prior records plus the
two gate records fit within the capacity, the buffer afterwards is
exactly the prior records, in order, followed by the two gate records. -/
theorem permissionsDebug_get_renders_reversed {α : Type} (cap : Nat)
    (c1 c2 : α) (st : List α) :
    (permissionsDebugGet cap true true c1 c2 st =
        (.render (ringAppend cap (ringAppend cap st c1) c2).reverse,
          ringAppend cap (ringAppend cap st c1) c2)) ∧
      (st.length + 2 ≤ cap →
        ringAppend cap (ringAppend cap st c1) c2 = st ++ [c1, c2]) := by
  constructor
  · simp [permissionsDebugGet]
  · intro h
    rw [ringAppend_within_capacity cap st c1 (by omega)]
    rw [ringAppend_within_capacity cap (st ++ [c1]) c2 (by simp; omega)]
    simp

/-- Witness for the amended C7: capacity 200, two records appended to an
empty buffer and rendered newest-first. -/
theorem permissionsDebug_get_renders_reversed_witness :
    (permissionsDebugGet 200 true true 0 1 ([] : List Nat) =
        (.render (ringAppend 200 (ringAppend 200 [] 0) 1).reverse,
          ringAppend 200 (ringAppend 200 [] 0) 1)) ∧
      (List.length ([] : List Nat) + 2 ≤ 200 →
        ringAppend 200 (ringAppend 200 [] 0) 1 = [] ++ [0, 1]) :=
  permissionsDebug_get_renders_reversed 200 0 1 []

/-- Response of PermissionsDebugView.post: the JSON body echoing the
parsed actor, the permission, the resource tuple handed to the
evaluator, and the evaluator's result. -/
structure PermCheckResponse where
  actor : JValue
  permission : String
  resource : List String
  result : Option Bool

/-- Body of PermissionsDebugView.post, after its permission gates (the
same two gates as the GET): `resource` starts empty, appends resource_1
if non-empty, then resource_2 if non-empty, and the resulting tuple is
passed to `ds.permission_allowed` (abstracted as `evalPerm`, its
USE_DEFAULT fallback folded into the abstraction) together with the
parsed actor and the permission name; the JSON response echoes them. -/
def permissionsDebugPost
    (evalPerm : JValue → String → List String → Option Bool)
    (actor : JValue) (permission r1 r2 : String) : PermCheckResponse :=
  let resource := (if r1 ≠ "" then [r1] else []) ++
    (if r2 ≠ "" then [r2] else [])
  { actor := actor, permission := permission, resource := resource,
    result := evalPerm actor permission resource }

/-- C9: the resource passed to the evaluator (and echoed in the
response) appends resource_1 then resource_2, each only when non-empty;
in particular an empty resource_1 with a non-empty resource_2 yields the
single-segment tuple whose first segment is resource_2. -/
theorem permissionsDebugPost_resource
    (evalPerm : JValue → String → List String → Option Bool)
    (actor : JValue) (permission r1 r2 : String) :
    ((permissionsDebugPost evalPerm actor permission r1 r2).resource =
        (if r1 ≠ "" then [r1] else []) ++
          (if r2 ≠ "" then [r2] else [])) ∧
      ((permissionsDebugPost evalPerm actor permission r1 r2).result =
        evalPerm actor permission
          ((if r1 ≠ "" then [r1] else []) ++
            (if r2 ≠ "" then [r2] else []))) ∧
      (r1 = "" → r2 ≠ "" →
        (permissionsDebugPost evalPerm actor permission r1 r2).resource =
          [r2]) := by
  refine ⟨rfl, rfl, ?_⟩
  intro h1 h2
  simp [permissionsDebugPost, h1, h2]

/-- Concrete evaluator for the C9 witness. -/
def evalPerm0 : JValue → String → List String → Option Bool :=
  fun _ _ r => some (!r.isEmpty)

/-- Witness for C9: empty resource_1 and resource_2 = "mytable" produce
the single-segment tuple ("mytable",). -/
theorem permissionsDebugPost_resource_witness :
    (permissionsDebugPost evalPerm0 (.obj [("id", .str "root")])
        "view-table" "" "mytable").resource = ["mytable"] :=
  (permissionsDebugPost_resource evalPerm0 (.obj [("id", .str "root")])
    "view-table" "" "mytable").2.2 rfl (by decide)
